import Mathlib

/-!
Verification of the real-time streaming subsystem of the kiwoom-restful
client (src/kiwoom/api.py, src/kiwoom/config/real.py, src/kiwoom/config/http.py).

Frames travelling over the websocket are JSON documents; we embed them as a
small JSON value type.  The partial decoder of src/kiwoom/config/real.py
(msgspec `Real` struct), the dispatcher loop `API._on_receive_websocket`, the
default callbacks, the subscription protocol (`register_tick`,
`register_hoga`, `remove_register`) and the connect/close lifecycle are
translated as executable Lean functions.  The asynchronous parts
(`asyncio.create_task` fire-and-forget scheduling, the semaphore permit
pool) are rendered as explicit state passing and a step relation.
-/

namespace Kiwoom

/-- A JSON document.  Raw frames over the websocket are JSON texts; we work
with the parsed tree, and "the raw frame" in claims means this value passed
through unmodified (the code passes the raw string without re-encoding). -/
inductive Json where
  | null : Json
  | str (s : String) : Json
  | num (n : Int) : Json
  | arr (elems : List Json) : Json
  | obj (fields : List (String × Json)) : Json

/-- Field lookup on a JSON object (first matching key); none on non-objects.
Models Python attribute/`.get` access on a decoded dict. -/
def Json.getField (j : Json) (k : String) : Option Json :=
  match j with
  | .obj fields => (fields.find? (fun p => p.fst == k)).map (fun p => p.snd)
  | _ => none

/-- src/kiwoom/config/real.py, `Real.Data`: one item of a REAL frame, the
partial decode keeps only the routing field `type` and the code `item`. -/
structure RealData where
  type : String
  item : String

/-- src/kiwoom/config/real.py, `Real`: partially decoded frame.  `data` is
`Optional[list[Real.Data]] = None`: it may be absent or null. -/
structure Real where
  trnm : String
  data : Option (List RealData)

/-- msgspec decode of one item against the `Real.Data` schema: an object with
required string fields `type` and `item`; extra fields are ignored. -/
def decodeRealData (j : Json) : Except String RealData :=
  match j.getField "type", j.getField "item" with
  | some (.str t), some (.str i) => .ok { type := t, item := i }
  | _, _ => .error "Expected object with str fields type and item"

/-- msgspec decode against the `Real` schema
(`msgspec.json.Decoder(type=Real)` in `API._on_receive_websocket`): an object
with a required string field `trnm`; `data` optional, absent or null gives
none, otherwise an array of `Real.Data` items; extra fields are ignored. -/
def decodeReal (j : Json) : Except String Real :=
  match j with
  | .obj _ =>
    match j.getField "trnm" with
    | some (.str t) =>
      match j.getField "data" with
      | none => .ok { trnm := t, data := none }
      | some .null => .ok { trnm := t, data := none }
      | some (.arr items) =>
        (items.mapM decodeRealData).map (fun ds => { trnm := t, data := some ds })
      | some _ => .error "Expected array or null for data"
    | _ => .error "Expected str field trnm"
  | _ => .error "Expected object"

/-- Outcome of running one callback handler body to completion: the frames it
sent over the transport, or the exception it raised. -/
inductive CbResult where
  | ok (sent : List Json) : CbResult
  | raised (msg : String) : CbResult

/-- A callback handler takes the raw (undecoded) frame. -/
def Callback : Type := Json → CbResult

/-- The callback registry `API._callbacks`: a `defaultdict` keyed by routing
key with a default-factory fallback for unregistered keys. -/
structure Callbacks where
  entries : List (String × Callback)
  dflt : Callback

/-- `self._callbacks[key]`: the registered handler, or the defaultdict
fallback when the key is unregistered. -/
def Callbacks.lookup (cbs : Callbacks) (k : String) : Callback :=
  match cbs.entries.find? (fun p => p.fst == k) with
  | some p => p.snd
  | none => cbs.dflt

/-- `k` has no registered entry in the registry. -/
def Callbacks.unregistered (cbs : Callbacks) (k : String) : Prop :=
  cbs.entries.find? (fun p => p.fst == k) = none

/-- Python `str.upper()` on the routing keys (ASCII), mapping each character
to its upper-case form. -/
def upper (s : String) : String := String.mk (s.data.map Char.toUpper)

/-- `API.add_callback_on_real_data`: uppercases the key and stores the
handler, overwriting any prior entry for that key.  (The semaphore wrapper
around the handler is modelled separately by the permit pool.) -/
def addCallback (cbs : Callbacks) (k : String) (f : Callback) : Callbacks :=
  { cbs with entries := (upper k, f) :: cbs.entries }

/-- Default PING handler `callback_on_ping` in
`API._add_default_callback_on_real_data`: `await self.socket.send(raw)` —
sends the raw received frame back, unmodified and undecoded. -/
def callback_on_ping (raw : Json) : CbResult := .ok [raw]

/-- Default LOGIN handler `callback_on_login`: `orjson.loads(raw)` then
raise `RuntimeError` when `msg.get("return_code") != 0`; on 0 it prints and
returns (sending nothing). -/
def callback_on_login (raw : Json) : CbResult :=
  match raw.getField "return_code" with
  | some (.num 0) => .ok []
  | _ => .raised "Login failed with return_code not zero"

/-- Defaultdict fallback from `API.__init__`: `lambda msg: print(msg)` —
prints the raw frame, sends nothing, never raises. -/
def defaultCallback (_raw : Json) : CbResult := .ok []

/-- The registry as constructed by `API.__init__` and
`_add_default_callback_on_real_data`: PING and LOGIN handlers plus the
printing fallback. -/
def defaultCallbacks : Callbacks :=
  addCallback (addCallback { entries := [], dflt := defaultCallback }
    "PING" callback_on_ping) "LOGIN" callback_on_login

/-- Result of the dispatch part of one iteration of
`API._on_receive_websocket` on a raw frame: either the ordered list of
scheduled invocations (routing key looked up, raw frame passed as argument),
one `asyncio.create_task` per entry, or the fatal path of the `except`
clause (decode error, or iterating a missing item list). -/
inductive StepResult where
  | scheduled (tasks : List (String × Json)) : StepResult
  | fatal (err : String) : StepResult

/-- One iteration's decode-and-dispatch, `API._on_receive_websocket` lines
279-285.  `trnm == "REAL"` schedules one task per item keyed by that item's
`type`, in listed order; any other `trnm` schedules one task keyed by `trnm`
itself.  A decode failure, or `for data in msg.data` when `data` is `None`
(`TypeError`), takes the fatal path. -/
def dispatchStep (raw : Json) : StepResult :=
  match decodeReal raw with
  | .error e => .fatal e
  | .ok msg =>
    if msg.trnm = "REAL" then
      match msg.data with
      | some items => .scheduled (items.map (fun d => (d.type, raw)))
      | none => .fatal "NoneType is not iterable"
    else .scheduled [(msg.trnm, raw)]

/-- Connection-side state seen by the dispatcher loop: the stop event
`_stop_task_event` and whether `close()` has been invoked. -/
structure DispState where
  stopEvent : Bool
  closed : Bool

/-- Effect of `API.close`: sets `_stop_task_event` and closes the socket and
the HTTP session. -/
def closeConn (st : DispState) : DispState :=
  { st with stopEvent := true, closed := true }

/-- Running the scheduled tasks: each spawned task looks up its callback and
runs the handler body on the raw frame.  The tasks are detached
(`asyncio.create_task` without an await), so their outcomes — including
raised exceptions — are recorded here but never reach the loop's `try`. -/
def runTasks (cbs : Callbacks) (tasks : List (String × Json)) : List CbResult :=
  tasks.map (fun t => cbs.lookup t.fst t.snd)

/-- One full iteration of the dispatcher loop on a dequeued frame: on the
fatal path `await self.close()` runs and the wrapped exception propagates to
the loop's caller; otherwise the scheduled tasks run detached and the loop
state is untouched by their outcomes. -/
def iterate (cbs : Callbacks) (st : DispState) (raw : Json) :
    DispState × Except String (List CbResult) :=
  match dispatchStep raw with
  | .fatal e => (closeConn st, .error ("Failed to handling websocket data: " ++ e))
  | .scheduled tasks => (st, .ok (runTasks cbs tasks))

/-- The dispatcher loop over the frames queued on `self.queue`, in arrival
order: each frame is processed by `iterate`; a fatal iteration stops the
loop and propagates its error (no retry, no reconnect), otherwise the
per-frame task outcomes are collected in order. -/
def dispatchLoop (cbs : Callbacks) (st : DispState) :
    List Json → DispState × Except String (List (List CbResult))
  | [] => (st, .ok [])
  | raw :: rest =>
    match iterate cbs st raw with
    | (st1, .error e) => (st1, .error e)
    | (st1, .ok results) =>
      match dispatchLoop cbs st1 rest with
      | (st2, .error e) => (st2, .error e)
      | (st2, .ok more) => (st2, .ok (results :: more))

/-- Observable lifecycle events of `API.connect` (src/kiwoom/api.py lines
61-78), in the order they happen. -/
inductive ConnEvent where
  | cancelledTask (id : Nat) : ConnEvent
  | createdTask (id : Nat) : ConnEvent

/-- Client state for the connect/close lifecycle.  `token` is the
authentication token available after `await super().connect(...)`;
`readTask` is the handle `_read_socket_task`; `running` lists the ids of
receive tasks currently alive (a task is done iff its id is not here).

Modelled from the spec: `Client.connect`/`Client.token` and the `Socket`
class live in kiwoom/http (not under src/); per the spec, connect requires a
token already obtained, and the socket fields below record only whether the
transport was opened and whether its stop flag is set. -/
structure ConnSt where
  token : Option String
  socketOpen : Bool
  socketStop : Bool
  stopTaskEvent : Bool
  readTask : Option Nat
  running : List Nat
  nextId : Nat

/-- The invariant maintained by the lifecycle: either no receive task is
alive, or exactly the one held in `_read_socket_task` is. -/
def ConnSt.wellFormed (st : ConnSt) : Prop :=
  st.running = [] ∨ ∃ t, st.readTask = some t ∧ st.running = [t]

/-- `API.connect`: raise when no token is available after the HTTP connect;
otherwise, if a prior receive task is still running, set `_stop_task_event`,
cancel it and await its termination (suppressing `CancelledError`); then set
the socket stop flag, open the transport with the token, clear
`_stop_task_event` and create the new receive task.  Returns the state after
the call together with the lifecycle events in order; on the token failure
the state is returned unchanged (no socket opened, no task created). -/
def connect (st : ConnSt) : (ConnSt × List ConnEvent) × Except String Unit :=
  match st.token with
  | none => ((st, []), .error "Not connected: token is not available.")
  | some _ =>
    let prior : ConnSt × List ConnEvent :=
      match st.readTask with
      | some tid =>
        if tid ∈ st.running then
          ({ st with stopTaskEvent := true, running := st.running.erase tid },
           [ConnEvent.cancelledTask tid])
        else (st, [])
      | none => (st, [])
    let st1 := prior.fst
    let st2 := { st1 with socketStop := true, socketOpen := true }
    let st3 :=
      { st2 with
        stopTaskEvent := false
        readTask := some st2.nextId
        running := st2.nextId :: st2.running
        nextId := st2.nextId + 1 }
    ((st3, prior.snd ++ [ConnEvent.createdTask st2.nextId]), .ok ())

/-- src/kiwoom/config/http.py line 16. -/
def WEBSOCKET_MAX_CONCURRENCY : Nat := 1000

/-- `API.register_tick` (and `register_hoga` with feed type "0D"): assert
`len(codes) <= 100`, then send exactly one REG frame.  The result is the
list of frames sent over the transport: the `assert` failure sends none. -/
def registerFrame (feedType : String) (grp_no : String) (codes : List String)
    (refresh : String) : Json :=
  Json.obj [("trnm", .str "REG"), ("grp_no", .str grp_no),
    ("refresh", .str refresh),
    ("data", .arr [Json.obj [("item", .arr (codes.map Json.str)),
      ("type", .arr [.str feedType])]])]

/-- `API.register_tick`, src/kiwoom/api.py lines 294-325. -/
def register_tick (grp_no : String) (codes : List String)
    (refresh : String := "1") : Except String (List Json) :=
  if codes.length ≤ 100 then .ok [registerFrame "0B" grp_no codes refresh]
  else .error "Max 100 codes per group"

/-- `API.register_hoga`, src/kiwoom/api.py lines 327-358. -/
def register_hoga (grp_no : String) (codes : List String)
    (refresh : String := "1") : Except String (List Json) :=
  if codes.length ≤ 100 then .ok [registerFrame "0D" grp_no codes refresh]
  else .error "Max 100 codes per group"

/-- The `type` argument of `API.remove_register`: `str | list[str]`. -/
inductive StrOrList where
  | one (v : String) : StrOrList
  | many (vs : List String) : StrOrList

/-- Python truthiness of the `type` argument: empty string and empty list
are falsy. -/
def StrOrList.isEmpty : StrOrList → Bool
  | .one v => v == ""
  | .many vs => vs.isEmpty

/-- Normalisation in `remove_register`: `if isinstance(type, str): type = [type]`. -/
def StrOrList.toList : StrOrList → List String
  | .one v => [v]
  | .many vs => vs

/-- `API.remove_register`, src/kiwoom/api.py lines 360-375: no-op when
`grp_no` or `type` is falsy; otherwise send one REMOVE frame.  The result is
the list of frames sent. -/
def remove_register (grp_no : String) (type : StrOrList) : List Json :=
  if grp_no == "" || type.isEmpty then []
  else
    [Json.obj [("trnm", .str "REMOVE"), ("grp_no", .str grp_no),
      ("refresh", .str ""),
      ("data", .arr [Json.obj [("type", .arr (type.toList.map Json.str))]])]]

/-- Modelled from the spec: `wrap_sync_callback` / `wrap_async_callback` in
kiwoom/http/utils.py are not under src/.  Per the spec, each scheduled
invocation acquires one permit of the semaphore of capacity
`WEBSOCKET_MAX_CONCURRENCY` before its handler body runs, and releases it
on completion, including when the handler raises.  The pool state counts
invocations waiting for a permit, executing, and finished. -/
structure Pool where
  cap : Nat
  waiting : Nat
  executing : Nat
  finished : Nat

/-- One scheduler step on the permit pool: `start` moves a waiting
invocation to executing, allowed only while a permit is free
(`executing < cap`); `finish` completes an executing handler body — whether
it returned or raised — and releases its permit unconditionally. -/
inductive PoolStep : Pool → Pool → Prop where
  | start (p : Pool) (hcap : p.executing < p.cap) (hw : 0 < p.waiting) :
      PoolStep p { p with waiting := p.waiting - 1, executing := p.executing + 1 }
  | finish (p : Pool) (raised : Bool) (he : 0 < p.executing) :
      PoolStep p { p with executing := p.executing - 1, finished := p.finished + 1 }

/-- Reachability of the pool scheduler: zero or more steps. -/
inductive PoolReach : Pool → Pool → Prop where
  | refl (p : Pool) : PoolReach p p
  | tail (p q r : Pool) (hpq : PoolReach p q) (hqr : PoolStep q r) : PoolReach p r

/-- The pool as `API.__init__` creates it for `m` scheduled invocations:
`asyncio.Semaphore(config.http.WEBSOCKET_MAX_CONCURRENCY)`, all invocations
initially waiting. -/
def initPool (m : Nat) : Pool :=
  { cap := WEBSOCKET_MAX_CONCURRENCY, waiting := m, executing := 0, finished := 0 }

/-- Concrete LOGIN frame with a non-zero return code. -/
def loginFailFrame : Json :=
  Json.obj [("trnm", .str "LOGIN"), ("return_code", .num 1)]

/-- Concrete LOGIN frame with return code 0. -/
def loginOkFrame : Json :=
  Json.obj [("trnm", .str "LOGIN"), ("return_code", .num 0)]

/-- Concrete PING frame as in the spec's example. -/
def pingFrame : Json :=
  Json.obj [("trnm", .str "PING"), ("val", .str "abc")]

/-- Concrete REAL frame with two items of heterogeneous types. -/
def realTwoItemsFrame : Json :=
  Json.obj [("trnm", .str "REAL"),
    ("data", .arr [Json.obj [("type", .str "0B"), ("item", .str "005930")],
                   Json.obj [("type", .str "0D"), ("item", .str "000660")]])]

/-- The two decoded items of realTwoItemsFrame. -/
def twoItems : List RealData :=
  [{ type := "0B", item := "005930" }, { type := "0D", item := "000660" }]

/-- Concrete REAL frame with the data field absent. -/
def realNoDataFrame : Json := Json.obj [("trnm", .str "REAL")]

/-- A fresh dispatcher-side state: stop event clear, connection open. -/
def initDispState : DispState := { stopEvent := false, closed := false }

/-- A fresh client state holding a token, before any receive task exists. -/
def initConnSt : ConnSt :=
  { token := some "token", socketOpen := false, socketStop := false,
    stopTaskEvent := false, readTask := none, running := [], nextId := 0 }

/-- The state a successful `API.connect` leaves behind: transport opened,
stop event cleared, the freshly created receive task both held in the
handle and the only one running. -/
def connectNext (st : ConnSt) : ConnSt :=
  { st with
    socketStop := true
    socketOpen := true
    stopTaskEvent := false
    readTask := some st.nextId
    running := [st.nextId]
    nextId := st.nextId + 1 }

/- ------------------------------------------------------------------ -/
/- Theorems                                                            -/
/- ------------------------------------------------------------------ -/

/-- C9: for every received frame whose trnm field equals "PING", the
dispatcher schedules the entry registered under "PING", and the default
PING handler sends the exact raw frame it received, unmodified and
undecoded, back over the transport. -/
theorem ping_echoes_raw_frame (raw : Json) (msg : Real)
    (hdec : decodeReal raw = .ok msg) (ht : msg.trnm = "PING") :
    dispatchStep raw = .scheduled [("PING", raw)] ∧
    defaultCallbacks.lookup "PING" = callback_on_ping ∧
    callback_on_ping raw = .ok [raw] := by
  refine ⟨?_, rfl, rfl⟩
  simp [dispatchStep, hdec, ht]

/-- Witness for C9 at the spec's concrete PING frame. -/
theorem ping_echoes_raw_frame_witness :
    dispatchStep pingFrame = .scheduled [("PING", pingFrame)] ∧
    defaultCallbacks.lookup "PING" = callback_on_ping ∧
    callback_on_ping pingFrame = .ok [pingFrame] :=
  ping_echoes_raw_frame pingFrame { trnm := "PING", data := none } rfl rfl

/-- C10: a REAL frame whose data field is absent or null decodes
successfully (the schema makes data optional, defaulting to none), yet the
dispatcher's iteration over the missing item list takes the fatal path:
the connection is closed and the error propagated. -/
theorem real_missing_data_is_fatal (cbs : Callbacks) (st : DispState)
    (raw : Json) (hdec : decodeReal raw = .ok { trnm := "REAL", data := none }) :
    decodeReal realNoDataFrame = .ok { trnm := "REAL", data := none } ∧
    decodeReal (Json.obj [("trnm", .str "REAL"), ("data", .null)]) =
      .ok { trnm := "REAL", data := none } ∧
    dispatchStep raw = .fatal "NoneType is not iterable" ∧
    (iterate cbs st raw).fst.closed = true ∧
    (iterate cbs st raw).snd =
      .error ("Failed to handling websocket data: " ++ "NoneType is not iterable") := by
  have hstep : dispatchStep raw = .fatal "NoneType is not iterable" := by
    simp [dispatchStep, hdec]
  refine ⟨rfl, rfl, hstep, ?_, ?_⟩ <;> simp [iterate, hstep, closeConn]

/-- Witness for C10 at the concrete REAL frame with absent data. -/
theorem real_missing_data_is_fatal_witness :
    decodeReal realNoDataFrame = .ok { trnm := "REAL", data := none } ∧
    decodeReal (Json.obj [("trnm", .str "REAL"), ("data", .null)]) =
      .ok { trnm := "REAL", data := none } ∧
    dispatchStep realNoDataFrame = .fatal "NoneType is not iterable" ∧
    (iterate defaultCallbacks initDispState realNoDataFrame).fst.closed = true ∧
    (iterate defaultCallbacks initDispState realNoDataFrame).snd =
      .error ("Failed to handling websocket data: " ++ "NoneType is not iterable") :=
  real_missing_data_is_fatal defaultCallbacks initDispState realNoDataFrame rfl

/-- C5: when an iteration's decode or scheduling fails, the loop invokes
close() — the resulting state is closed — before propagating the wrapped
error to the loop's caller; the loop stops there (no retry, no reconnect)
and the frame is not silently skipped: the loop's result is the error. -/
theorem fatal_error_closes_then_propagates (cbs : Callbacks) (st : DispState)
    (raw : Json) (rest : List Json) (e : String)
    (h : dispatchStep raw = .fatal e) :
    iterate cbs st raw =
      (closeConn st, .error ("Failed to handling websocket data: " ++ e)) ∧
    (closeConn st).closed = true ∧
    dispatchLoop cbs st (raw :: rest) =
      (closeConn st, .error ("Failed to handling websocket data: " ++ e)) := by
  have hit : iterate cbs st raw =
      (closeConn st, .error ("Failed to handling websocket data: " ++ e)) := by
    simp [iterate, h]
  refine ⟨hit, rfl, ?_⟩
  simp [dispatchLoop, hit]

/-- Witness for C5: a non-object frame fails to decode; the loop closes the
connection and returns the error, ignoring the rest of the queue. -/
theorem fatal_error_closes_then_propagates_witness :
    iterate defaultCallbacks initDispState Json.null =
      (closeConn initDispState,
       .error ("Failed to handling websocket data: " ++ "Expected object")) ∧
    (closeConn initDispState).closed = true ∧
    dispatchLoop defaultCallbacks initDispState [Json.null, pingFrame] =
      (closeConn initDispState,
       .error ("Failed to handling websocket data: " ++ "Expected object")) :=
  fatal_error_closes_then_propagates defaultCallbacks initDispState Json.null
    [pingFrame] "Expected object" rfl

/-- C2: evaluation at the failing input, the LOGIN frame with
return_code 1.  The default LOGIN handler completes without raising on
return_code 0 and raises on return_code 1 — but the dispatcher schedules it
as a detached task, so the iteration on the failing frame returns
successfully with the exception recorded only inside the task's outcome:
close() is never invoked and the connection stays open, contrary to the
claim and to the loop's own docstring that callback exceptions are raised
from the loop. -/
theorem login_failure_leaves_connection_open :
    callback_on_login loginOkFrame = .ok [] ∧
    callback_on_login loginFailFrame =
      .raised "Login failed with return_code not zero" ∧
    dispatchStep loginFailFrame = .scheduled [("LOGIN", loginFailFrame)] ∧
    iterate defaultCallbacks initDispState loginFailFrame =
      (initDispState, .ok [.raised "Login failed with return_code not zero"]) ∧
    (iterate defaultCallbacks initDispState loginFailFrame).fst.closed = false :=
  ⟨rfl, rfl, rfl, rfl, rfl⟩

/-- C4: register_tick and register_hoga with more than 100 codes fail
(assert) and send no frame; with at most 100 codes each sends exactly one
REG frame holding all the codes, feed type "0B" for tick and "0D" for the
order book. -/
theorem register_code_limit (grp_no : String) (codes : List String)
    (refresh : String) :
    (100 < codes.length →
      register_tick grp_no codes refresh = .error "Max 100 codes per group" ∧
      register_hoga grp_no codes refresh = .error "Max 100 codes per group") ∧
    (codes.length ≤ 100 →
      register_tick grp_no codes refresh =
        .ok [registerFrame "0B" grp_no codes refresh] ∧
      register_hoga grp_no codes refresh =
        .ok [registerFrame "0D" grp_no codes refresh]) := by
  constructor
  · intro h
    have h1 : ¬ codes.length ≤ 100 := by omega
    simp [register_tick, register_hoga, h1]
  · intro h
    simp [register_tick, register_hoga, h]

/-- Witness for C4 at 101 and at 100 codes. -/
theorem register_code_limit_witness :
    register_tick "1" (List.replicate 101 "005930") "1" =
      .error "Max 100 codes per group" ∧
    register_hoga "1" (List.replicate 101 "005930") "1" =
      .error "Max 100 codes per group" ∧
    register_tick "1" (List.replicate 100 "005930") "1" =
      .ok [registerFrame "0B" "1" (List.replicate 100 "005930") "1"] :=
  ⟨((register_code_limit "1" (List.replicate 101 "005930") "1").1 (by simp)).1,
   ((register_code_limit "1" (List.replicate 101 "005930") "1").1 (by simp)).2,
   ((register_code_limit "1" (List.replicate 100 "005930") "1").2 (by simp)).1⟩

/-- C7: remove_register sends no frame when the group identifier or the
type argument is empty; a single string type is normalised into a
one-element list; otherwise exactly one REMOVE frame is sent, with
refresh set to the empty string. -/
theorem remove_register_behaviour (grp_no : String) (t : StrOrList) :
    ((grp_no = "" ∨ t.isEmpty = true) → remove_register grp_no t = []) ∧
    (∀ v, StrOrList.toList (.one v) = [v]) ∧
    (grp_no ≠ "" → t.isEmpty = false →
      remove_register grp_no t =
        [Json.obj [("trnm", .str "REMOVE"), ("grp_no", .str grp_no),
          ("refresh", .str ""),
          ("data", .arr [Json.obj [("type", .arr (t.toList.map Json.str))]])]]) := by
  refine ⟨?_, fun v => rfl, ?_⟩
  · rintro (h | h) <;> simp [remove_register, h]
  · intro h1 h2
    simp [remove_register, h1, h2]

/-- Witness for C7: a sent frame for a single-string type, and the two
no-op cases of the spec. -/
theorem remove_register_behaviour_witness :
    remove_register "1" (.one "0B") =
      [Json.obj [("trnm", .str "REMOVE"), ("grp_no", .str "1"),
        ("refresh", .str ""),
        ("data", .arr [Json.obj [("type", .arr [Json.str "0B"])]])]] ∧
    remove_register "" (.many ["0B"]) = [] ∧
    remove_register "1" (.many []) = [] :=
  ⟨(remove_register_behaviour "1" (.one "0B")).2.2 (by simp) rfl,
   (remove_register_behaviour "" (.many ["0B"])).1 (Or.inl rfl),
   (remove_register_behaviour "1" (.many [])).1 (Or.inr rfl)⟩

/-- C1: one pass of the dispatcher on a REAL frame with N items schedules
exactly N invocations in the items' listed order, the i-th keyed by the
i-th item's type; running them invokes, for each item, the callback looked
up under that item's type key, on the raw undecoded frame; lookup of an
unregistered key yields the default fallback. -/
theorem real_frame_dispatches_each_item (cbs : Callbacks) (raw : Json)
    (msg : Real) (items : List RealData) (hdec : decodeReal raw = .ok msg)
    (ht : msg.trnm = "REAL") (hd : msg.data = some items) :
    dispatchStep raw = .scheduled (items.map (fun d => (d.type, raw))) ∧
    (items.map (fun d => (d.type, raw))).length = items.length ∧
    runTasks cbs (items.map (fun d => (d.type, raw))) =
      items.map (fun d => cbs.lookup d.type raw) ∧
    (∀ k, cbs.unregistered k → cbs.lookup k = cbs.dflt) := by
  refine ⟨?_, by simp, ?_, ?_⟩
  · simp [dispatchStep, hdec, ht, hd]
  · simp [runTasks]
  · intro k hk
    simp only [Callbacks.lookup, Callbacks.unregistered] at hk ⊢
    rw [hk]

/-- Witness for C1 at a concrete REAL frame with two items of
heterogeneous types, against the default registry. -/
theorem real_frame_dispatches_each_item_witness :
    dispatchStep realTwoItemsFrame =
      .scheduled (twoItems.map (fun d => (d.type, realTwoItemsFrame))) ∧
    (twoItems.map (fun d => (d.type, realTwoItemsFrame))).length =
      twoItems.length ∧
    runTasks defaultCallbacks
      (twoItems.map (fun d => (d.type, realTwoItemsFrame))) =
      twoItems.map (fun d => defaultCallbacks.lookup d.type realTwoItemsFrame) ∧
    (∀ k, defaultCallbacks.unregistered k →
      defaultCallbacks.lookup k = defaultCallbacks.dflt) :=
  real_frame_dispatches_each_item defaultCallbacks realTwoItemsFrame
    { trnm := "REAL", data := some twoItems } twoItems rfl rfl rfl

/-- C8: connect() fails when no token is available after the HTTP connect,
and in that case the streaming transport is not opened and no receive task
is started — the state is returned unchanged. -/
theorem connect_without_token_fails (st : ConnSt) (h : st.token = none) :
    connect st = ((st, []), .error "Not connected: token is not available.") ∧
    (connect st).fst.fst.socketOpen = st.socketOpen ∧
    (connect st).fst.fst.readTask = st.readTask ∧
    (connect st).fst.fst.running = st.running := by
  have heq : connect st =
      ((st, []), .error "Not connected: token is not available.") := by
    simp [connect, h]
  exact ⟨heq, by rw [heq], by rw [heq], by rw [heq]⟩

/-- Witness for C8 at a concrete tokenless state. -/
theorem connect_without_token_fails_witness :
    connect { initConnSt with token := none } =
      (({ initConnSt with token := none }, []),
       .error "Not connected: token is not available.") ∧
    (connect { initConnSt with token := none }).fst.fst.socketOpen =
      ({ initConnSt with token := none } : ConnSt).socketOpen ∧
    (connect { initConnSt with token := none }).fst.fst.readTask =
      ({ initConnSt with token := none } : ConnSt).readTask ∧
    (connect { initConnSt with token := none }).fst.fst.running =
      ({ initConnSt with token := none } : ConnSt).running :=
  connect_without_token_fails { initConnSt with token := none } rfl

/-- Helper: connect on a token-holding state with no running receive task
opens the transport and starts the fresh task, emitting no cancellation. -/
theorem connect_eq_of_no_running (st : ConnSt) (tok : String)
    (htok : st.token = some tok) (hr : st.running = []) :
    connect st = ((connectNext st, [ConnEvent.createdTask st.nextId]), .ok ()) := by
  obtain ⟨t0, so, ss, ste, rt, run, ni⟩ := st
  simp only at htok hr
  subst htok hr
  cases rt with
  | none => simp [connect, connectNext]
  | some tid => simp [connect, connectNext]

/-- Helper: connect on a token-holding state whose held receive task is
still running cancels and awaits that task first, then starts the fresh
one: the cancellation event precedes the creation event. -/
theorem connect_eq_of_running (st : ConnSt) (tok : String) (tid : Nat)
    (htok : st.token = some tok) (hrt : st.readTask = some tid)
    (hr : st.running = [tid]) :
    connect st =
      ((connectNext st,
        [ConnEvent.cancelledTask tid, ConnEvent.createdTask st.nextId]),
       .ok ()) := by
  obtain ⟨t0, so, ss, ste, rt, run, ni⟩ := st
  simp only at htok hrt hr
  subst htok hrt hr
  simp [connect, connectNext, List.erase_cons_head]

/-- C3: from any well-formed token-holding state, connect() leaves exactly
one running receive task, held in the task handle; when a prior task was
still running its cancellation (with termination awaited and the
cancellation swallowed: the call still returns ok) is emitted before the
creation of the new task; and calling connect() twice in succession also
leaves exactly one running task. -/
theorem connect_twice_single_receive_task (st : ConnSt) (tok : String)
    (htok : st.token = some tok) (hwf : st.wellFormed) :
    ∃ st1 evs, connect st = ((st1, evs), .ok ()) ∧
      st1.running = [st.nextId] ∧
      st1.readTask = some st.nextId ∧
      st1.wellFormed ∧
      (∀ tid, st.readTask = some tid → tid ∈ st.running →
        evs = [ConnEvent.cancelledTask tid, ConnEvent.createdTask st.nextId]) ∧
      ∃ st2 evs2, connect st1 = ((st2, evs2), .ok ()) ∧
        st2.running = [st1.nextId] ∧
        evs2 = [ConnEvent.cancelledTask st.nextId,
          ConnEvent.createdTask st1.nextId] := by
  have hsecond :
      connect (connectNext st) =
        ((connectNext (connectNext st),
          [ConnEvent.cancelledTask st.nextId,
           ConnEvent.createdTask (connectNext st).nextId]),
         .ok ()) :=
    connect_eq_of_running (connectNext st) tok st.nextId htok rfl rfl
  rcases hwf with hr | ⟨t, hrt, hr⟩
  · refine ⟨connectNext st, [ConnEvent.createdTask st.nextId],
      connect_eq_of_no_running st tok htok hr,
      rfl, rfl, Or.inr ⟨st.nextId, rfl, rfl⟩, ?_,
      connectNext (connectNext st), _, hsecond, rfl, rfl⟩
    intro tid _ hmem
    rw [hr] at hmem
    exact absurd hmem (List.not_mem_nil tid)
  · refine ⟨connectNext st,
      [ConnEvent.cancelledTask t, ConnEvent.createdTask st.nextId],
      connect_eq_of_running st tok t htok hrt hr,
      rfl, rfl, Or.inr ⟨st.nextId, rfl, rfl⟩, ?_,
      connectNext (connectNext st), _, hsecond, rfl, rfl⟩
    intro tid htid _
    rw [hrt] at htid
    cases htid
    rfl

/-- Witness for C3 at the fresh client state. -/
theorem connect_twice_single_receive_task_witness :
    ∃ st1 evs, connect initConnSt = ((st1, evs), .ok ()) ∧
      st1.running = [initConnSt.nextId] ∧
      st1.readTask = some initConnSt.nextId ∧
      st1.wellFormed ∧
      (∀ tid, initConnSt.readTask = some tid → tid ∈ initConnSt.running →
        evs = [ConnEvent.cancelledTask tid,
          ConnEvent.createdTask initConnSt.nextId]) ∧
      ∃ st2 evs2, connect st1 = ((st2, evs2), .ok ()) ∧
        st2.running = [st1.nextId] ∧
        evs2 = [ConnEvent.cancelledTask initConnSt.nextId,
          ConnEvent.createdTask st1.nextId] :=
  connect_twice_single_receive_task initConnSt "token" rfl (Or.inl rfl)

/-- C6: along every execution of the permit-pool scheduler started from the
pool `API.__init__` creates (capacity WEBSOCKET_MAX_CONCURRENCY = 1000) with
m scheduled invocations, the number of handler bodies executing at any
instant never exceeds the capacity; no invocation is dropped (waiting,
executing and finished invocations always sum to m — those beyond the cap
wait); and a finishing handler body releases its permit unconditionally,
whether or not it raised. -/
theorem permit_pool_bounds_execution (m : Nat) (p : Pool)
    (h : PoolReach (initPool m) p) :
    p.cap = WEBSOCKET_MAX_CONCURRENCY ∧
    p.executing ≤ WEBSOCKET_MAX_CONCURRENCY ∧
    p.waiting + p.executing + p.finished = m ∧
    (∀ (q : Pool), ∀ _raisedFlag : Bool, 0 < q.executing →
      PoolStep q
        { q with executing := q.executing - 1, finished := q.finished + 1 }) := by
  induction h with
  | refl =>
    exact ⟨rfl, by simp [initPool], by simp [initPool],
      fun q rf he => PoolStep.finish q rf he⟩
  | tail q1 r1 hreach hstep ih =>
    obtain ⟨hcap, hexec, hsum, _⟩ := ih
    cases hstep with
    | start hc hw =>
      rw [hcap] at hc
      refine ⟨hcap, ?_, ?_, fun q rf he => PoolStep.finish q rf he⟩
      · show q1.executing + 1 ≤ WEBSOCKET_MAX_CONCURRENCY
        omega
      · show q1.waiting - 1 + (q1.executing + 1) + q1.finished = m
        omega
    | finish _raised1 he =>
      refine ⟨hcap, ?_, ?_, fun q rf he => PoolStep.finish q rf he⟩
      · show q1.executing - 1 ≤ WEBSOCKET_MAX_CONCURRENCY
        omega
      · show q1.waiting + (q1.executing - 1) + (q1.finished + 1) = m
        omega

/-- Witness for C6: one invocation started and finished (releasing its
permit) out of two initially scheduled. -/
theorem permit_pool_bounds_execution_witness :
    ({ cap := WEBSOCKET_MAX_CONCURRENCY, waiting := 1, executing := 0,
       finished := 1 } : Pool).cap = WEBSOCKET_MAX_CONCURRENCY ∧
    ({ cap := WEBSOCKET_MAX_CONCURRENCY, waiting := 1, executing := 0,
       finished := 1 } : Pool).executing ≤ WEBSOCKET_MAX_CONCURRENCY ∧
    ({ cap := WEBSOCKET_MAX_CONCURRENCY, waiting := 1, executing := 0,
       finished := 1 } : Pool).waiting +
      ({ cap := WEBSOCKET_MAX_CONCURRENCY, waiting := 1, executing := 0,
         finished := 1 } : Pool).executing +
      ({ cap := WEBSOCKET_MAX_CONCURRENCY, waiting := 1, executing := 0,
         finished := 1 } : Pool).finished = 2 ∧
    (∀ (q : Pool), ∀ _raisedFlag : Bool, 0 < q.executing →
      PoolStep q
        { q with executing := q.executing - 1, finished := q.finished + 1 }) :=
  permit_pool_bounds_execution 2 _
    (PoolReach.tail _ _ _
      (PoolReach.tail _ _ _ (PoolReach.refl _)
        (PoolStep.start (initPool 2) (by simp [initPool, WEBSOCKET_MAX_CONCURRENCY]) (by simp [initPool])))
      (PoolStep.finish _ true (by simp)))

end Kiwoom
